import Mathlib

/-!
Shallow embedding of the offline-first synchronization engine of this
repository (`SyncService` together with the `TaskService` collaborator and
the sqlite-backed store), and proofs about the frozen claims.

Conventions of the embedding:
* JavaScript `Date` values are epoch milliseconds, embedded as `Nat`;
  `new Date()` at a call site becomes an explicit `now : Nat` parameter.
* The sqlite store is embedded as three in-memory tables (lists of rows),
  mirroring the schema created in `db/database.ts`; SQL statements become
  the corresponding pure list operations.  `JSON.stringify`/`JSON.parse`
  round-trips and `Date`/ISO-string round-trips are identities.
* The network (axios) is embedded as a `RemoteAuthority` value: a
  connectivity bit for the `/health` probe and a response function for
  `POST /batch`, which either yields the server's `processed_items` array
  or a transport error message (a rejected promise).
-/

namespace Sync

inductive SyncStatus
  | pending
  | inProgress
  | synced
  | error
  | failed
deriving DecidableEq, Repr

inductive Operation
  | create
  | update
  | delete
deriving DecidableEq, Repr

/-- Rendering of an `Operation` as the string stored and transmitted by the
source (`'create' | 'update' | 'delete'`). -/
def operationToString : Operation → String
  | .create => "create"
  | .update => "update"
  | .delete => "delete"

/-- The `Task` entity of `src/types/index.ts`, one row of the `tasks` table. -/
structure Task where
  id : String
  title : String
  description : String
  completed : Bool
  created_at : Nat
  updated_at : Nat
  is_deleted : Bool
  sync_status : SyncStatus
  server_id : Option String
  last_synced_at : Option Nat
deriving DecidableEq, Repr

instance : Inhabited Task :=
  ⟨{ id := "", title := "", description := "", completed := false, created_at := 0,
     updated_at := 0, is_deleted := false, sync_status := .pending,
     server_id := none, last_synced_at := none }⟩

/-- The `SyncQueueItem` of `src/types/index.ts`; also one row of the
`sync_queue` table (whose schema has exactly these columns).  The `data`
payload is declared `Partial<Task>` in the source and is consumed as a full
`Task` by the conflict-resolution path (`item.data as Task`); it is embedded
as a `Task`. -/
structure SyncQueueItem where
  id : String
  task_id : String
  operation : Operation
  data : Task
  created_at : Nat
  retry_count : Nat
  error_message : Option String
deriving DecidableEq, Repr

/-- One row of the `sync_dead_letter_queue` table.  The schema declares
`failed_at DATETIME DEFAULT CURRENT_TIMESTAMP`; the INSERT issued by
`moveToDeadLetterQueue` does not list that column, so the store stamps the
row with the current time, embedded as the `now` of the inserting call. -/
structure DeadLetterRow where
  id : String
  task_id : String
  operation : Operation
  data : Task
  created_at : Nat
  retry_count : Nat
  error_message : String
  failed_at : Nat
  original_sync_queue_id : String
deriving DecidableEq, Repr

/-- The `SyncError` entries collected in a pass result. -/
structure SyncError where
  task_id : String
  operation : String
  error : String
  timestamp : Nat
deriving DecidableEq, Repr

/-- The `SyncResult` of a sync pass. -/
structure SyncResult where
  success : Bool
  synced_items : Nat
  failed_items : Nat
  errors : List SyncError
deriving DecidableEq, Repr

inductive ProcessedStatus
  | success
  | conflict
  | error
deriving DecidableEq, Repr

/-- One element of the server's `processed_items` array
(`BatchSyncResponse` in `src/types/index.ts`).  `server_id` is optional
here because `handleSyncSuccess` receives it as `serverId?: string`. -/
structure ProcessedItem where
  client_id : String
  server_id : Option String
  status : ProcessedStatus
  resolved_data : Option Task
  error : Option String
deriving DecidableEq, Repr

/-- The remote authority together with the network, as observed through
axios: `connected` is the outcome of the `GET /health` probe (any network
failure yields `false`), and `respond` is the outcome of `POST /batch` for
a given item list and checksum header — `Except.error msg` is a rejected
promise (transport failure), `Except.ok items` a `BatchSyncResponse`. -/
structure RemoteAuthority where
  connected : Bool
  respond : List SyncQueueItem → String → Except String (List ProcessedItem)

/-- The persistent store: the three tables created by `db/database.ts`. -/
structure DBState where
  tasks : List Task
  sync_queue : List SyncQueueItem
  dead_letter : List DeadLetterRow
deriving DecidableEq, Repr

/-- The `SyncService` configuration: `maxRetries` is the hard-coded instance
field `3`; `batchSize` comes from `SYNC_BATCH_SIZE` with default `50`. -/
structure SyncConfig where
  maxRetries : Nat := 3
  batchSize : Nat := 50
deriving DecidableEq, Repr

/-- The record returned by `SyncService.getSyncStatus`. -/
structure SyncStatusReport where
  pending : Nat
  inProgress : Nat
  errors : Nat
  deadLetter : Nat
  lastSync : Option Nat
deriving DecidableEq, Repr

namespace TaskService

/-- Embeds `TaskService.updateTaskFromSync`: UPDATE of title, description,
completed, `updated_at = now`, `sync_status = 'synced'`, `server_id` from
the update payload and `last_synced_at = now`, on the row with the given id. -/
def updateTaskFromSync (now : Nat) (id : String) (updates : Task) (db : DBState) : DBState :=
  { db with tasks := db.tasks.map fun t =>
      if t.id = id then
        { t with title := updates.title, description := updates.description,
                 completed := updates.completed, updated_at := now,
                 sync_status := .synced, server_id := updates.server_id,
                 last_synced_at := some now }
      else t }

/-- Embeds `TaskService.markAsSynced`: sets `sync_status = 'synced'`,
`last_synced_at = now`, `server_id = serverId`, `updated_at = now`. -/
def markAsSynced (now : Nat) (taskId : String) (serverId : Option String) (db : DBState) : DBState :=
  { db with tasks := db.tasks.map fun t =>
      if t.id = taskId then
        { t with sync_status := .synced, last_synced_at := some now,
                 server_id := serverId, updated_at := now }
      else t }

/-- Embeds `TaskService.markSyncError`: sets `sync_status = 'error'` and a fresh
`updated_at`. -/
def markSyncError (now : Nat) (taskId : String) (db : DBState) : DBState :=
  { db with tasks := db.tasks.map fun t =>
      if t.id = taskId then { t with sync_status := .error, updated_at := now } else t }

/-- Embeds `TaskService.markSyncFailed`: sets `sync_status = 'failed'` and a fresh
`updated_at`. -/
def markSyncFailed (now : Nat) (taskId : String) (db : DBState) : DBState :=
  { db with tasks := db.tasks.map fun t =>
      if t.id = taskId then { t with sync_status := .failed, updated_at := now } else t }

end TaskService

/-!
The MD5 digest used by `createBatchChecksum` (`crypto.createHash('md5')`,
RFC 1321), embedded over byte lists with `Nat` arithmetic modulo `2 ^ 32`.
-/

/-- Left rotation of a 32-bit word (a `Nat` below `2 ^ 32`). -/
def rotl32 (x s : Nat) : Nat := (x * 2 ^ s + x / 2 ^ (32 - s)) % 4294967296

/-- Round function F, for 32-bit words; `4294967295 - b` is bitwise
complement on that range. -/
def md5F (b c d : Nat) : Nat := (b &&& c) ||| ((4294967295 - b) &&& d)

/-- Round function G. -/
def md5G (b c d : Nat) : Nat := (d &&& b) ||| ((4294967295 - d) &&& c)

/-- Round function H. -/
def md5H (b c d : Nat) : Nat := b ^^^ c ^^^ d

/-- Round function I. -/
def md5I (b c d : Nat) : Nat := c ^^^ (b ||| (4294967295 - d))

/-- The 64 sine-derived constants of RFC 1321. -/
def md5K : List Nat :=
  [0xd76aa478, 0xe8c7b756, 0x242070db, 0xc1bdceee,
   0xf57c0faf, 0x4787c62a, 0xa8304613, 0xfd469501,
   0x698098d8, 0x8b44f7af, 0xffff5bb1, 0x895cd7be,
   0x6b901122, 0xfd987193, 0xa679438e, 0x49b40821,
   0xf61e2562, 0xc040b340, 0x265e5a51, 0xe9b6c7aa,
   0xd62f105d, 0x02441453, 0xd8a1e681, 0xe7d3fbc8,
   0x21e1cde6, 0xc33707d6, 0xf4d50d87, 0x455a14ed,
   0xa9e3e905, 0xfcefa3f8, 0x676f02d9, 0x8d2a4c8a,
   0xfffa3942, 0x8771f681, 0x6d9d6122, 0xfde5380c,
   0xa4beea44, 0x4bdecfa9, 0xf6bb4b60, 0xbebfbc70,
   0x289b7ec6, 0xeaa127fa, 0xd4ef3085, 0x04881d05,
   0xd9d4d039, 0xe6db99e5, 0x1fa27cf8, 0xc4ac5665,
   0xf4292244, 0x432aff97, 0xab9423a7, 0xfc93a039,
   0x655b59c3, 0x8f0ccc92, 0xffeff47d, 0x85845dd1,
   0x6fa87e4f, 0xfe2ce6e0, 0xa3014314, 0x4e0811a1,
   0xf7537e82, 0xbd3af235, 0x2ad7d2bb, 0xeb86d391]

/-- The per-round left-rotation amounts of RFC 1321. -/
def md5S : List Nat :=
  [7, 12, 17, 22, 7, 12, 17, 22, 7, 12, 17, 22, 7, 12, 17, 22,
   5, 9, 14, 20, 5, 9, 14, 20, 5, 9, 14, 20, 5, 9, 14, 20,
   4, 11, 16, 23, 4, 11, 16, 23, 4, 11, 16, 23, 4, 11, 16, 23,
   6, 10, 15, 21, 6, 10, 15, 21, 6, 10, 15, 21, 6, 10, 15, 21]

/-- One MD5 round on state `(a, b, c, d)`; `m` maps a word index of the
current chunk to its 32-bit value. -/
def md5Round (m : Nat → Nat) (st : Nat × Nat × Nat × Nat) (i : Nat) : Nat × Nat × Nat × Nat :=
  let a := st.1
  let b := st.2.1
  let c := st.2.2.1
  let d := st.2.2.2
  let fg : Nat × Nat :=
    if i < 16 then (md5F b c d, i)
    else if i < 32 then (md5G b c d, (5 * i + 1) % 16)
    else if i < 48 then (md5H b c d, (3 * i + 5) % 16)
    else (md5I b c d, (7 * i) % 16)
  let f := (fg.1 + a + md5K.getD i 0 + m fg.2) % 4294967296
  (d, (b + rotl32 f (md5S.getD i 0)) % 4294967296, b, c)

/-- Processing of one 64-byte chunk. -/
def md5Chunk (st : Nat × Nat × Nat × Nat) (chunk : List Nat) : Nat × Nat × Nat × Nat :=
  let m := fun j => chunk.getD (4 * j) 0 + 256 * chunk.getD (4 * j + 1) 0
    + 65536 * chunk.getD (4 * j + 2) 0 + 16777216 * chunk.getD (4 * j + 3) 0
  let r := (List.range 64).foldl (md5Round m) st
  ((st.1 + r.1) % 4294967296, (st.2.1 + r.2.1) % 4294967296,
   (st.2.2.1 + r.2.2.1) % 4294967296, (st.2.2.2 + r.2.2.2) % 4294967296)

/-- Little-endian byte rendering of `n` on `len` bytes. -/
def toLEBytes (len n : Nat) : List Nat := (List.range len).map fun i => n / 256 ^ i % 256

/-- MD5 padding: a `0x80` byte, zeros up to 56 mod 64, then the bit length
on 8 little-endian bytes. -/
def md5Pad (msg : List Nat) : List Nat :=
  msg ++ [128] ++ List.replicate ((119 - msg.length % 64) % 64) 0 ++ toLEBytes 8 (msg.length * 8)

/-- Fuel-driven split into 64-byte chunks (the fuel, instantiated with the
list length, strictly bounds the number of chunks). -/
def chunksGo : Nat → List Nat → List (List Nat)
  | _, [] => []
  | 0, _ :: _ => []
  | fuel + 1, x :: xs => (x :: xs).take 64 :: chunksGo fuel ((x :: xs).drop 64)

/-- Split of a byte list into consecutive 64-byte chunks. -/
def chunks64 (l : List Nat) : List (List Nat) := chunksGo l.length l

/-- The 16 MD5 digest bytes of a byte message. -/
def md5Bytes (msg : List Nat) : List Nat :=
  let st := (chunks64 (md5Pad msg)).foldl md5Chunk
    (0x67452301, 0xefcdab89, 0x98badcfe, 0x10325476)
  toLEBytes 4 st.1 ++ toLEBytes 4 st.2.1 ++ toLEBytes 4 st.2.2.1 ++ toLEBytes 4 st.2.2.2

/-- Lower-case hexadecimal digit. -/
def hexDigitChar (n : Nat) : Char := if n < 10 then Char.ofNat (48 + n) else Char.ofNat (87 + n)

/-- Two-digit hexadecimal rendering of a byte. -/
def byteToHex (b : Nat) : List Char := [hexDigitChar (b / 16), hexDigitChar (b % 16)]

/-- UTF-8 encoding of one character. -/
def utf8Bytes (c : Char) : List Nat :=
  let n := c.toNat
  if n < 128 then [n]
  else if n < 2048 then [192 + n / 64, 128 + n % 64]
  else if n < 65536 then [224 + n / 4096, 128 + n / 64 % 64, 128 + n % 64]
  else [240 + n / 262144, 128 + n / 4096 % 64, 128 + n / 64 % 64, 128 + n % 64]

/-- UTF-8 bytes of a string. -/
def strBytes (s : String) : List Nat := (s.data.map utf8Bytes).flatten

/-- Embeds `createHash('md5').update(s).digest('hex')`. -/
def md5Hex (s : String) : String := ⟨((md5Bytes (strBytes s)).map byteToHex).flatten⟩

namespace SyncService

/-- The ordered string of one item inside the checksum input:
`${item.id}-${item.task_id}-${item.operation}-${item.created_at.getTime()}`. -/
def chunkString (item : SyncQueueItem) : String :=
  item.id ++ "-" ++ item.task_id ++ "-" ++ operationToString item.operation
    ++ "-" ++ toString item.created_at

/-- The string over which the batch checksum is computed: the items'
`chunkString`s joined by `'|'`. -/
def dataString (items : List SyncQueueItem) : String :=
  String.intercalate "|" (items.map chunkString)

/-- Embeds `SyncService.createBatchChecksum`: MD5 hex digest of `dataString`. -/
def createBatchChecksum (items : List SyncQueueItem) : String :=
  md5Hex (dataString items)

/-- The comparison realised by `ORDER BY task_id, created_at ASC`. -/
def queueLE (a b : SyncQueueItem) : Prop :=
  a.task_id < b.task_id ∨ (a.task_id = b.task_id ∧ a.created_at ≤ b.created_at)

instance : DecidableRel queueLE := fun a b => by
  unfold queueLE; infer_instance

instance : IsTotal SyncQueueItem queueLE :=
  ⟨by
    intro a b
    unfold queueLE
    rcases lt_trichotomy a.task_id b.task_id with h | h | h
    · exact Or.inl (Or.inl h)
    · rcases Nat.le_total a.created_at b.created_at with h2 | h2
      · exact Or.inl (Or.inr ⟨h, h2⟩)
      · exact Or.inr (Or.inr ⟨h.symm, h2⟩)
    · exact Or.inr (Or.inl h)⟩

instance : IsTrans SyncQueueItem queueLE :=
  ⟨by
    intro a b c hab hbc
    unfold queueLE at *
    rcases hab with h1 | ⟨h1, h1c⟩
    · rcases hbc with h2 | ⟨h2, _⟩
      · exact Or.inl (lt_trans h1 h2)
      · exact Or.inl (h2 ▸ h1)
    · rcases hbc with h2 | ⟨h2, h2c⟩
      · exact Or.inl (h1 ▸ h2)
      · exact Or.inr ⟨h1.trans h2, le_trans h1c h2c⟩⟩

/-- Embeds `SyncService.getPendingSyncItemsChronological`:
`SELECT * FROM sync_queue WHERE retry_count < maxRetries ORDER BY task_id, created_at ASC`
(the sort is embedded as a stable sort by that key). -/
def getPendingSyncItemsChronological (cfg : SyncConfig) (db : DBState) : List SyncQueueItem :=
  (db.sync_queue.filter fun r => r.retry_count < cfg.maxRetries).insertionSort queueLE

/-- Embeds `SyncService.markItemsAsInProgress`, which awaits
`UPDATE sync_queue SET sync_status = 'in-progress' WHERE id = ?` for each
drained item in turn.  The `sync_queue` table created by `db/database.ts`
declares no `sync_status` column, so SQLite rejects the statement and the
first iteration's `db.run` promise rejects; the storage error propagates
to the caller as a thrown exception.  With no items the loop body never
runs and the call returns normally. -/
def markItemsAsInProgress (items : List SyncQueueItem) (db : DBState) :
    Except String DBState :=
  match items with
  | [] => .ok db
  | _ :: _ => .error "SQLITE_ERROR: no such column: sync_status"

/-- The loop body of `SyncService.createChronologicalBatches`: flush the
current batch once it holds `batchSize` items, then append the item. -/
def batchStep (batchSize : Nat) (acc : List (List SyncQueueItem) × List SyncQueueItem)
    (item : SyncQueueItem) : List (List SyncQueueItem) × List SyncQueueItem :=
  if batchSize ≤ acc.2.length then (acc.1 ++ [acc.2], [item]) else (acc.1, acc.2 ++ [item])

/-- Embeds `SyncService.createChronologicalBatches`. -/
def createChronologicalBatches (batchSize : Nat) (items : List SyncQueueItem) :
    List (List SyncQueueItem) :=
  let folded := items.foldl (batchStep batchSize) ([], [])
  if 0 < folded.2.length then folded.1 ++ [folded.2] else folded.1

inductive WinnerSource
  | client
  | server
deriving DecidableEq, Repr

/-- Embeds `SyncService.mergeTasks`: `{...loser, ...winner}` (both are full tasks,
so the winner's value is taken for every field), then the explicit
overrides `id`, `server_id`, `sync_status`, `last_synced_at`, `updated_at`. -/
def mergeTasks (now : Nat) (winner loser : Task) (winnerSource : WinnerSource) : Task :=
  { id := if winnerSource = .server then winner.id else loser.id
    title := winner.title
    description := winner.description
    completed := winner.completed
    created_at := winner.created_at
    updated_at := now
    is_deleted := winner.is_deleted
    sync_status := .synced
    server_id := winner.server_id
    last_synced_at := some now }

/-- Embeds `SyncService.resolveConflictWithPriority`: last-write-wins on
`updated_at`, ties resolved for the client. -/
def resolveConflictWithPriority (now : Nat) (localTask serverTask : Task) : Task :=
  if localTask.updated_at = serverTask.updated_at then
    mergeTasks now localTask serverTask .client
  else if serverTask.updated_at < localTask.updated_at then
    mergeTasks now localTask serverTask .client
  else
    mergeTasks now serverTask localTask .server

/-- Embeds `SyncService.removeFromSyncQueue`: `DELETE FROM sync_queue WHERE id = ?`. -/
def removeFromSyncQueue (syncId : String) (db : DBState) : DBState :=
  { db with sync_queue := db.sync_queue.filter fun r => r.id ≠ syncId }

/-- Embeds `SyncService.handleSyncSuccess`.  The `else if (serverId)` test is
JavaScript truthiness, so an empty string skips `markAsSynced`. -/
def handleSyncSuccess (now : Nat) (item : SyncQueueItem) (serverId : Option String)
    (resolvedTask : Option Task) (db : DBState) : DBState :=
  let db1 := match resolvedTask with
    | some t => TaskService.updateTaskFromSync now item.task_id t db
    | none => match serverId with
      | some sid => if sid = "" then db else TaskService.markAsSynced now item.task_id (some sid) db
      | none => db
  removeFromSyncQueue item.id db1

/-- Embeds `SyncService.moveToDeadLetterQueue`: INSERT of the dead-letter row
(the store fills `failed_at` with the current time per the schema default),
then removal of the queue entry. -/
def moveToDeadLetterQueue (now : Nat) (item : SyncQueueItem) (errMsg : String)
    (db : DBState) : DBState :=
  removeFromSyncQueue item.id
    { db with dead_letter := db.dead_letter ++
        [{ id := "dlq_" ++ item.id, task_id := item.task_id, operation := item.operation,
           data := item.data, created_at := item.created_at, retry_count := item.retry_count,
           error_message := errMsg, failed_at := now, original_sync_queue_id := item.id }] }

/-- Embeds `SyncService.handleSyncError`: increments the retry count; at the
configured maximum escalates to the dead-letter store and marks the task
failed, otherwise persists the new count and error message and marks the
task errored. -/
def handleSyncError (cfg : SyncConfig) (now : Nat) (item : SyncQueueItem) (errMsg : String)
    (db : DBState) : DBState :=
  let newRetryCount := item.retry_count + 1
  if cfg.maxRetries ≤ newRetryCount then
    TaskService.markSyncFailed now item.task_id (moveToDeadLetterQueue now item errMsg db)
  else
    TaskService.markSyncError now item.task_id
      { db with sync_queue := db.sync_queue.map fun r =>
          if r.id = item.id then { r with retry_count := newRetryCount, error_message := some errMsg }
          else r }

/-- The per-item reconciliation step of `processBatchWithChecksum`'s success
path: `p` is the item with its position, matched against the positionally
aligned `processed_items`.  The source reads `processedItem.resolved_data!`
in the conflict case (a non-null assertion); the embedding reads it with a
default. -/
def reconcileStep (cfg : SyncConfig) (now : Nat) (processed : List ProcessedItem)
    (acc : SyncResult × DBState) (p : Nat × SyncQueueItem) : SyncResult × DBState :=
  match processed[p.1]? with
  | none =>
      ({ acc.1 with failed_items := acc.1.failed_items + 1 },
       handleSyncError cfg now p.2 "No response from server" acc.2)
  | some resp =>
      match resp.status with
      | .success =>
          ({ acc.1 with synced_items := acc.1.synced_items + 1 },
           handleSyncSuccess now p.2 resp.server_id resp.resolved_data acc.2)
      | .conflict =>
          let resolvedTask := resolveConflictWithPriority now p.2.data
            (resp.resolved_data.getD default)
          let e : SyncError :=
            { task_id := p.2.task_id, operation := operationToString p.2.operation,
              error := "Conflict resolved using last-write-wins", timestamp := now }
          ({ acc.1 with synced_items := acc.1.synced_items + 1, errors := acc.1.errors ++ [e] },
           handleSyncSuccess now p.2 resp.server_id (some resolvedTask) acc.2)
      | .error =>
          let msg := resp.error.getD "Unknown error"
          let e : SyncError :=
            { task_id := p.2.task_id, operation := operationToString p.2.operation,
              error := msg, timestamp := now }
          ({ acc.1 with failed_items := acc.1.failed_items + 1, errors := acc.1.errors ++ [e] },
           handleSyncError cfg now p.2 msg acc.2)

/-- Embeds `SyncService.processBatchWithChecksum`: POST the batch with its
checksum header; on a transport failure every item of the batch receives an
individual error outcome, otherwise each item is reconciled against the
positionally aligned response. -/
def processBatchWithChecksum (cfg : SyncConfig) (remote : RemoteAuthority) (now : Nat)
    (items : List SyncQueueItem) (db : DBState) : SyncResult × DBState :=
  let init : SyncResult := { success := true, synced_items := 0, failed_items := 0, errors := [] }
  match remote.respond items (createBatchChecksum items) with
  | .error msg =>
      let folded := items.foldl (fun (acc : SyncResult × DBState) item =>
        let e : SyncError :=
          { task_id := item.task_id, operation := operationToString item.operation,
            error := msg, timestamp := now }
        ({ acc.1 with failed_items := acc.1.failed_items + 1, errors := acc.1.errors ++ [e] },
         handleSyncError cfg now item msg acc.2)) (init, db)
      ({ folded.1 with success := folded.1.failed_items == 0 }, folded.2)
  | .ok processed =>
      let folded := items.enum.foldl (reconcileStep cfg now processed) (init, db)
      ({ folded.1 with success := folded.1.failed_items == 0 }, folded.2)

/-- Embeds `SyncService.checkConnectivity`: the bounded `GET /health` probe;
network failures yield `false`. -/
def checkConnectivity (remote : RemoteAuthority) : Bool :=
  remote.connected

/-- Embeds `SyncService.sync`: the full pass.  The try block first probes
connectivity (an unreachable remote authority throws into the catch block,
which records the single global error on the result accumulated so far);
an empty eligible queue returns early; otherwise the result's
`synced_items` is seeded with `pendingItems.length` and the pass awaits
`markItemsAsInProgress` — whose storage error, thrown because the
`sync_queue` schema lacks the targeted `sync_status` column, also lands in
the catch block, returning that seeded result with `success = false` and
the store untouched.  Only if the mark step returned normally (possible
solely for an empty item list) would the batches be dispatched, folded in,
and `success` set to `failed_items == 0`. -/
def sync (cfg : SyncConfig) (remote : RemoteAuthority) (now : Nat) (db : DBState) :
    SyncResult × DBState :=
  if checkConnectivity remote = false then
    ({ success := false, synced_items := 0, failed_items := 0,
       errors := [{ task_id := "global", operation := "sync",
                    error := "No network connectivity", timestamp := now }] }, db)
  else
    let pendingItems := getPendingSyncItemsChronological cfg db
    if pendingItems.length = 0 then
      ({ success := true, synced_items := 0, failed_items := 0, errors := [] }, db)
    else
      match markItemsAsInProgress pendingItems db with
      | .error msg =>
          ({ success := false, synced_items := pendingItems.length, failed_items := 0,
             errors := [{ task_id := "global", operation := "sync",
                          error := msg, timestamp := now }] }, db)
      | .ok db1 =>
          let batches := createChronologicalBatches cfg.batchSize pendingItems
          let folded := batches.foldl (fun (acc : SyncResult × DBState) batch =>
            let br := processBatchWithChecksum cfg remote now batch acc.2
            ({ acc.1 with
                synced_items := acc.1.synced_items + br.1.synced_items
                failed_items := acc.1.failed_items + br.1.failed_items
                errors := acc.1.errors ++ br.1.errors }, br.2))
            ({ success := true, synced_items := pendingItems.length, failed_items := 0,
               errors := [] }, db1)
          ({ folded.1 with success := folded.1.failed_items == 0 }, folded.2)

/-- Embeds `SyncService.addToSyncQueue`: INSERT of a fresh queue entry with
`retry_count = 0`; the generated id and the current time are parameters of
the embedding. -/
def addToSyncQueue (genId : String) (now : Nat) (taskId : String) (op : Operation)
    (data : Task) (db : DBState) : DBState :=
  { db with sync_queue := db.sync_queue ++
      [{ id := genId, task_id := taskId, operation := op, data := data,
         created_at := now, retry_count := 0, error_message := none }] }

/-- Embeds `SyncService.getSyncStatus`: pending and dead-letter counts are read
from the store, `lastSync` is `MAX(last_synced_at)` over tasks, and
`inProgress` and `errors` are the literal constants `0` of the source. -/
def getSyncStatus (cfg : SyncConfig) (db : DBState) : SyncStatusReport :=
  { pending := (db.sync_queue.filter fun r => r.retry_count < cfg.maxRetries).length
    inProgress := 0
    errors := 0
    deadLetter := db.dead_letter.length
    lastSync := (db.tasks.filterMap fun t => t.last_synced_at).max? }

end SyncService

/-- Iterated sync passes: `syncPasses cfg remote now db k` is the store
after `k` complete passes. -/
def syncPasses (cfg : SyncConfig) (remote : RemoteAuthority) (now : Nat) (db : DBState) :
    Nat → DBState
  | 0 => db
  | k + 1 => (SyncService.sync cfg remote now (syncPasses cfg remote now db k)).2

/-- A reachable remote authority whose dispatch fails on every attempt with
the fixed transport error `emsg`. -/
def failingRemote (emsg : String) : RemoteAuthority :=
  { connected := true, respond := fun _ _ => .error emsg }

/-- A reachable remote authority that answers success for every submitted
item, assigning the remote identifier `srv_1`. -/
def alwaysSuccessRemote : RemoteAuthority :=
  { connected := true
    respond := fun items _ => .ok (items.map fun item =>
      { client_id := item.id, server_id := some "srv_1", status := .success,
        resolved_data := none, error := none }) }

/-- An unreachable remote authority: the connectivity probe fails. -/
def unreachableRemote : RemoteAuthority :=
  { connected := false, respond := fun _ _ => .error "Network error" }

/-- The quadruple of a queue item that feeds the batch checksum. -/
def itemTuple (item : SyncQueueItem) : String × String × Operation × Nat :=
  (item.id, item.task_id, item.operation, item.created_at)

/-- A concrete task used in witness scenarios. -/
def sampleTask : Task :=
  { id := "t1", title := "A", description := "d", completed := false, created_at := 1,
    updated_at := 2, is_deleted := false, sync_status := .pending,
    server_id := none, last_synced_at := none }

/-- A concrete local conflict version, strictly newer than `sampleServer`. -/
def sampleLocal : Task :=
  { id := "t1", title := "local title", description := "local desc", completed := true,
    created_at := 1, updated_at := 20, is_deleted := false, sync_status := .pending,
    server_id := none, last_synced_at := none }

/-- A concrete remote conflict version, strictly older than `sampleLocal`. -/
def sampleServer : Task :=
  { id := "srv-uuid-9", title := "server title", description := "server desc",
    completed := false, created_at := 1, updated_at := 10, is_deleted := false,
    sync_status := .synced, server_id := some "srv-uuid-9", last_synced_at := some 10 }

/-- A remote conflict version whose `updated_at` equals `sampleLocal`'s. -/
def tieServer : Task :=
  { sampleServer with updated_at := 20 }

/-- A concrete queue entry with `retry_count = 0`. -/
def item1 : SyncQueueItem :=
  { id := "sync_1", task_id := "t1", operation := .update, data := sampleTask,
    created_at := 5, retry_count := 0, error_message := none }

/-- A store with one task and one pending queue entry. -/
def db1 : DBState := { tasks := [sampleTask], sync_queue := [item1], dead_letter := [] }

/-- Queue items sharing the checksum quadruple of `item1` but differing in
`retry_count`. -/
def itemAlpha : SyncQueueItem := item1

/-- See `itemAlpha`: same checksum quadruple, different `retry_count`. -/
def itemBeta : SyncQueueItem := { item1 with retry_count := 1 }

/-- A queue item whose checksum quadruple differs from `item1`'s. -/
def itemGamma : SyncQueueItem := { item1 with id := "sync_2", created_at := 6 }

/-- Character-level view of the separators following the head chunk of a
joined checksum input. -/
def tailCh : List (List Char) → List Char
  | [] => []
  | x :: xs => '|' :: (x ++ tailCh xs)

/-- Character-level view of a `'|'`-joined list of chunks. -/
def joinCh (l : List (List Char)) : List Char :=
  match l with
  | [] => []
  | x :: xs => x ++ tailCh xs

/-- String-level view of the separators following the head chunk. -/
def strTailJoin (s : String) : List String → String
  | [] => ""
  | a :: as => s ++ a ++ strTailJoin s as

/-!  Theorems about the frozen claims. -/

/-- C10: for every store state, `getSyncStatus` reports `inProgress = 0` and
`errors = 0` unconditionally — both fields are literal constants of the
source, independent of the queue and dead-letter contents. -/
theorem C10_getSyncStatus_constants (cfg : SyncConfig) (db : DBState) :
    (SyncService.getSyncStatus cfg db).inProgress = 0 ∧
    (SyncService.getSyncStatus cfg db).errors = 0 :=
  ⟨rfl, rfl⟩

/-- C3: when the local conflict version is strictly newer than the remote
one, the merged task keeps every local field value (title, description,
completed, is_deleted, created_at, server_id) while adopting the identifier
carried by the remote version. -/
theorem C3_local_newer_keeps_local_fields (now : Nat) (localTask serverTask : Task)
    (h : serverTask.updated_at < localTask.updated_at) :
    (SyncService.resolveConflictWithPriority now localTask serverTask).id = serverTask.id ∧
    (SyncService.resolveConflictWithPriority now localTask serverTask).title = localTask.title ∧
    (SyncService.resolveConflictWithPriority now localTask serverTask).description
      = localTask.description ∧
    (SyncService.resolveConflictWithPriority now localTask serverTask).completed
      = localTask.completed ∧
    (SyncService.resolveConflictWithPriority now localTask serverTask).is_deleted
      = localTask.is_deleted ∧
    (SyncService.resolveConflictWithPriority now localTask serverTask).created_at
      = localTask.created_at ∧
    (SyncService.resolveConflictWithPriority now localTask serverTask).server_id
      = localTask.server_id := by
  unfold SyncService.resolveConflictWithPriority
  rw [if_neg (by omega), if_pos h]
  exact ⟨rfl, rfl, rfl, rfl, rfl, rfl, rfl⟩

/-- Witness for C3 at a concrete conflicting pair. -/
theorem C3_local_newer_keeps_local_fields_witness :
    (SyncService.resolveConflictWithPriority 30 sampleLocal sampleServer).id = sampleServer.id ∧
    (SyncService.resolveConflictWithPriority 30 sampleLocal sampleServer).title
      = sampleLocal.title ∧
    (SyncService.resolveConflictWithPriority 30 sampleLocal sampleServer).description
      = sampleLocal.description ∧
    (SyncService.resolveConflictWithPriority 30 sampleLocal sampleServer).completed
      = sampleLocal.completed ∧
    (SyncService.resolveConflictWithPriority 30 sampleLocal sampleServer).is_deleted
      = sampleLocal.is_deleted ∧
    (SyncService.resolveConflictWithPriority 30 sampleLocal sampleServer).created_at
      = sampleLocal.created_at ∧
    (SyncService.resolveConflictWithPriority 30 sampleLocal sampleServer).server_id
      = sampleLocal.server_id :=
  C3_local_newer_keeps_local_fields 30 sampleLocal sampleServer (by decide)

/-- C7: equal `updated_at` timestamps resolve with the local version as
winner (its field values are kept), and for every conflicting pair the
merged result carries `sync_status = synced`, `last_synced_at = now` and
`updated_at = now`. -/
theorem C7_tie_local_wins_and_fresh_fields (now : Nat) (localTask serverTask : Task) :
    (localTask.updated_at = serverTask.updated_at →
      (SyncService.resolveConflictWithPriority now localTask serverTask).title
        = localTask.title ∧
      (SyncService.resolveConflictWithPriority now localTask serverTask).description
        = localTask.description ∧
      (SyncService.resolveConflictWithPriority now localTask serverTask).completed
        = localTask.completed ∧
      (SyncService.resolveConflictWithPriority now localTask serverTask).is_deleted
        = localTask.is_deleted ∧
      (SyncService.resolveConflictWithPriority now localTask serverTask).created_at
        = localTask.created_at ∧
      (SyncService.resolveConflictWithPriority now localTask serverTask).server_id
        = localTask.server_id) ∧
    (SyncService.resolveConflictWithPriority now localTask serverTask).sync_status
      = SyncStatus.synced ∧
    (SyncService.resolveConflictWithPriority now localTask serverTask).last_synced_at
      = some now ∧
    (SyncService.resolveConflictWithPriority now localTask serverTask).updated_at = now := by
  refine ⟨?_, ?_⟩
  · intro h
    unfold SyncService.resolveConflictWithPriority
    rw [if_pos h]
    exact ⟨rfl, rfl, rfl, rfl, rfl, rfl⟩
  · unfold SyncService.resolveConflictWithPriority
    by_cases h1 : localTask.updated_at = serverTask.updated_at
    · rw [if_pos h1]; exact ⟨rfl, rfl, rfl⟩
    · rw [if_neg h1]
      by_cases h2 : serverTask.updated_at < localTask.updated_at
      · rw [if_pos h2]; exact ⟨rfl, rfl, rfl⟩
      · rw [if_neg h2]; exact ⟨rfl, rfl, rfl⟩

/-- Witness for C7 at a concrete tied pair, with the tie hypothesis
discharged. -/
theorem C7_tie_local_wins_and_fresh_fields_witness :
    ((SyncService.resolveConflictWithPriority 30 sampleLocal tieServer).title
        = sampleLocal.title ∧
      (SyncService.resolveConflictWithPriority 30 sampleLocal tieServer).description
        = sampleLocal.description ∧
      (SyncService.resolveConflictWithPriority 30 sampleLocal tieServer).completed
        = sampleLocal.completed ∧
      (SyncService.resolveConflictWithPriority 30 sampleLocal tieServer).is_deleted
        = sampleLocal.is_deleted ∧
      (SyncService.resolveConflictWithPriority 30 sampleLocal tieServer).created_at
        = sampleLocal.created_at ∧
      (SyncService.resolveConflictWithPriority 30 sampleLocal tieServer).server_id
        = sampleLocal.server_id) ∧
    (SyncService.resolveConflictWithPriority 30 sampleLocal tieServer).sync_status
      = SyncStatus.synced ∧
    (SyncService.resolveConflictWithPriority 30 sampleLocal tieServer).last_synced_at
      = some 30 ∧
    (SyncService.resolveConflictWithPriority 30 sampleLocal tieServer).updated_at = 30 :=
  ⟨(C7_tie_local_wins_and_fresh_fields 30 sampleLocal tieServer).1 rfl,
   (C7_tie_local_wins_and_fresh_fields 30 sampleLocal tieServer).2⟩

/-- Shared helper: the escalation branch of `handleSyncError`, characterised
on all three tables. -/
theorem handleSyncError_max_spec (cfg : SyncConfig) (now : Nat) (item : SyncQueueItem)
    (errMsg : String) (db : DBState) (h : cfg.maxRetries ≤ item.retry_count + 1) :
    (SyncService.handleSyncError cfg now item errMsg db).dead_letter
      = db.dead_letter ++
        [{ id := "dlq_" ++ item.id, task_id := item.task_id, operation := item.operation,
           data := item.data, created_at := item.created_at, retry_count := item.retry_count,
           error_message := errMsg, failed_at := now, original_sync_queue_id := item.id }] ∧
    (SyncService.handleSyncError cfg now item errMsg db).sync_queue
      = db.sync_queue.filter (fun r => r.id ≠ item.id) ∧
    (SyncService.handleSyncError cfg now item errMsg db).tasks
      = db.tasks.map fun t =>
          if t.id = item.task_id then { t with sync_status := .failed, updated_at := now }
          else t := by
  unfold SyncService.handleSyncError
  rw [if_pos h]
  exact ⟨rfl, rfl, rfl⟩

/-- C5: when an error outcome raises a mutation's retry count to the
configured maximum, exactly one dead-letter row is appended, preserving the
mutation's `task_id`, `operation`, `payload`, `created_at`, `retry_count`,
original queue id and the triggering error message, stamped with the
failure time; the queue entry is removed and the owning task's sync status
is set to `failed`. -/
theorem C5_escalation_verbatim (cfg : SyncConfig) (now : Nat) (item : SyncQueueItem)
    (errMsg : String) (db : DBState) (h : cfg.maxRetries ≤ item.retry_count + 1) :
    (SyncService.handleSyncError cfg now item errMsg db).dead_letter
      = db.dead_letter ++
        [{ id := "dlq_" ++ item.id, task_id := item.task_id, operation := item.operation,
           data := item.data, created_at := item.created_at, retry_count := item.retry_count,
           error_message := errMsg, failed_at := now, original_sync_queue_id := item.id }] ∧
    (SyncService.handleSyncError cfg now item errMsg db).sync_queue
      = db.sync_queue.filter (fun r => r.id ≠ item.id) ∧
    (SyncService.handleSyncError cfg now item errMsg db).tasks
      = db.tasks.map fun t =>
          if t.id = item.task_id then { t with sync_status := .failed, updated_at := now }
          else t :=
  handleSyncError_max_spec cfg now item errMsg db h

/-- Witness for C5: a queue entry at `retry_count = 2` under the default
`maxRetries = 3`. -/
theorem C5_escalation_verbatim_witness :
    (SyncService.handleSyncError {} 9 { item1 with retry_count := 2 } "boom" db1).dead_letter
      = [{ id := "dlq_sync_1", task_id := "t1", operation := .update,
           data := sampleTask, created_at := 5, retry_count := 2,
           error_message := "boom", failed_at := 9, original_sync_queue_id := "sync_1" }] ∧
    (SyncService.handleSyncError {} 9 { item1 with retry_count := 2 } "boom" db1).sync_queue
      = [] ∧
    (SyncService.handleSyncError {} 9 { item1 with retry_count := 2 } "boom" db1).tasks
      = [{ sampleTask with sync_status := .failed, updated_at := 9 }] := by
  have h := C5_escalation_verbatim {} 9 { item1 with retry_count := 2 } "boom" db1 (by decide)
  refine ⟨?_, ?_, ?_⟩
  · rw [h.1]; decide
  · rw [h.2.1]; decide
  · rw [h.2.2]; decide

/-- C1 (amended): for every pass, `success = true` implies
`failed_items = 0`; the converse equivalence fails on every abort path —
both the pass rejected at the connectivity probe and, because the
mark-in-progress UPDATE references a column missing from the `sync_queue`
schema, every connected pass over a nonempty eligible queue return
`failed_items = 0` together with `success = false`. -/
theorem C1_success_implies_no_failed (cfg : SyncConfig) (remote : RemoteAuthority) (now : Nat)
    (db : DBState) :
    (SyncService.sync cfg remote now db).1.success = true →
    (SyncService.sync cfg remote now db).1.failed_items = 0 := by
  unfold SyncService.sync
  dsimp only
  split
  · simp
  · split
    · simp
    · split
      · simp
      · simp [beq_iff_eq]

/-- Witness for C1's amended statement: a connected pass over an empty
eligible queue completes with `success = true`, so the implication yields
`failed_items = 0` there. -/
theorem C1_success_implies_no_failed_witness :
    (SyncService.sync {} alwaysSuccessRemote 7 ⟨[], [], []⟩).1.failed_items = 0 :=
  C1_success_implies_no_failed {} alwaysSuccessRemote 7 ⟨[], [], []⟩ (by decide)

/-- Counterexample to C1 as stated: the pass aborted at the connectivity
probe and the connected pass over a nonempty eligible queue (which throws
at the mark-in-progress step) both report `success = false` together with
`failed_items = 0`, so `success` is not equivalent to `failed_items = 0`
on either pass. -/
theorem C1_abort_paths_counterexample :
    ((SyncService.sync {} unreachableRemote 7 db1).1.success = false ∧
     (SyncService.sync {} unreachableRemote 7 db1).1.failed_items = 0 ∧
     ¬((SyncService.sync {} unreachableRemote 7 db1).1.success = true ↔
       (SyncService.sync {} unreachableRemote 7 db1).1.failed_items = 0)) ∧
    ((SyncService.sync {} alwaysSuccessRemote 7 db1).1.success = false ∧
     (SyncService.sync {} alwaysSuccessRemote 7 db1).1.failed_items = 0 ∧
     ¬((SyncService.sync {} alwaysSuccessRemote 7 db1).1.success = true ↔
       (SyncService.sync {} alwaysSuccessRemote 7 db1).1.failed_items = 0)) := by
  decide

/-- C2 (code bug): enqueueing exactly one mutation into an empty queue and
running a pass against an always-success remote authority never reaches
dispatch — the pass throws at the mark-in-progress step because the
`sync_queue` schema lacks the `sync_status` column — so it returns
`success = false` with the store (including the queue entry) untouched;
`synced_items = 1` holds only because the result is seeded with the
pending count, and `failed_items = 0` holds, but the claimed removal of
the queue entry does not happen. -/
theorem C2_single_enqueue_crashes_at_mark :
    (SyncService.sync {} alwaysSuccessRemote 7
      (SyncService.addToSyncQueue "sync_1" 5 "t1" .update sampleTask
        { tasks := [sampleTask], sync_queue := [], dead_letter := [] })).1.synced_items = 1 ∧
    (SyncService.sync {} alwaysSuccessRemote 7
      (SyncService.addToSyncQueue "sync_1" 5 "t1" .update sampleTask
        { tasks := [sampleTask], sync_queue := [], dead_letter := [] })).1.failed_items = 0 ∧
    (SyncService.sync {} alwaysSuccessRemote 7
      (SyncService.addToSyncQueue "sync_1" 5 "t1" .update sampleTask
        { tasks := [sampleTask], sync_queue := [], dead_letter := [] })).1.success = false ∧
    (SyncService.sync {} alwaysSuccessRemote 7
      (SyncService.addToSyncQueue "sync_1" 5 "t1" .update sampleTask
        { tasks := [sampleTask], sync_queue := [], dead_letter := [] })).2
      = SyncService.addToSyncQueue "sync_1" 5 "t1" .update sampleTask
          { tasks := [sampleTask], sync_queue := [], dead_letter := [] } := by
  decide

/-- Shared helper: invariant of the batching fold — every flushed batch has
exactly `batchSize` items, the current batch never exceeds it, and the
flushed batches followed by the current batch spell out the processed
input. -/
theorem batchStep_foldl_spec (bs : Nat) (hbs : 1 ≤ bs) :
    ∀ (items : List SyncQueueItem) (batches : List (List SyncQueueItem))
      (current : List SyncQueueItem),
      (∀ b ∈ batches, b.length = bs) → current.length ≤ bs →
      (∀ b ∈ (items.foldl (SyncService.batchStep bs) (batches, current)).1, b.length = bs) ∧
      (items.foldl (SyncService.batchStep bs) (batches, current)).2.length ≤ bs ∧
      (items.foldl (SyncService.batchStep bs) (batches, current)).1.flatten ++
        (items.foldl (SyncService.batchStep bs) (batches, current)).2
        = batches.flatten ++ current ++ items := by
  intro items
  induction items with
  | nil =>
      intro batches current h1 h2
      exact ⟨h1, h2, by simp⟩
  | cons x xs ih =>
      intro batches current h1 h2
      rw [List.foldl_cons]
      by_cases hc : bs ≤ current.length
      · have hcur : current.length = bs := le_antisymm h2 hc
        have hstep : SyncService.batchStep bs (batches, current) x = (batches ++ [current], [x]) := by
          simp [SyncService.batchStep, hc]
        rw [hstep]
        have h1' : ∀ b ∈ batches ++ [current], b.length = bs := by
          intro b hb
          rcases List.mem_append.1 hb with hb | hb
          · exact h1 b hb
          · simp only [List.mem_singleton] at hb
            subst hb
            exact hcur
        have hrec := ih (batches ++ [current]) [x] h1' (by simpa using hbs)
        refine ⟨hrec.1, hrec.2.1, ?_⟩
        rw [hrec.2.2]
        simp
      · have hlen : (current ++ [x]).length ≤ bs := by
          have : current.length < bs := lt_of_not_ge hc
          simp only [List.length_append, List.length_singleton]
          omega
        have hstep : SyncService.batchStep bs (batches, current) x = (batches, current ++ [x]) := by
          simp [SyncService.batchStep, hc]
        rw [hstep]
        have hrec := ih batches (current ++ [x]) h1 hlen
        refine ⟨hrec.1, hrec.2.1, ?_⟩
        rw [hrec.2.2]
        simp

/-- C8: for every positive batch size, `createChronologicalBatches`
partitions the input in order — the concatenation of the chunks is the
input, every chunk is nonempty with at most `batchSize` items, and every
chunk other than the last has exactly `batchSize` items. -/
theorem C8_batching_partitions (bs : Nat) (hbs : 1 ≤ bs) (items : List SyncQueueItem) :
    (SyncService.createChronologicalBatches bs items).flatten = items ∧
    (∀ b ∈ SyncService.createChronologicalBatches bs items,
      1 ≤ b.length ∧ b.length ≤ bs) ∧
    (∀ i : Fin (SyncService.createChronologicalBatches bs items).length,
      (i : Nat) + 1 < (SyncService.createChronologicalBatches bs items).length →
      ((SyncService.createChronologicalBatches bs items).get i).length = bs) := by
  obtain ⟨hall, hcur, hflat⟩ := batchStep_foldl_spec bs hbs items [] []
    (by intro b hb; simp at hb) (by simp)
  simp only [List.flatten_nil, List.nil_append] at hflat
  unfold SyncService.createChronologicalBatches
  by_cases h2 : 0 < (items.foldl (SyncService.batchStep bs) ([], [])).2.length
  · rw [if_pos h2]
    refine ⟨?_, ?_, ?_⟩
    · rw [List.flatten_append]
      simpa using hflat
    · intro b hb
      rcases List.mem_append.1 hb with hb | hb
      · have := hall b hb
        constructor
        · omega
        · omega
      · simp only [List.mem_singleton] at hb
        subst hb
        exact ⟨h2, hcur⟩
    · intro i hi
      rw [List.get_eq_getElem]
      have hlt : (i : Nat) < (items.foldl (SyncService.batchStep bs) ([], [])).1.length := by
        have := hi
        simp only [List.length_append, List.length_singleton] at this
        omega
      rw [List.getElem_append_left hlt]
      exact hall _ (List.getElem_mem hlt)
  · rw [if_neg h2]
    have hnil : (items.foldl (SyncService.batchStep bs) ([], [])).2 = [] := by
      have := Nat.eq_zero_of_not_pos h2
      exact List.eq_nil_of_length_eq_zero this
    refine ⟨?_, ?_, ?_⟩
    · rw [hnil] at hflat
      simpa using hflat
    · intro b hb
      have := hall b hb
      exact ⟨by omega, by omega⟩
    · intro i _
      rw [List.get_eq_getElem]
      exact hall _ (List.getElem_mem i.isLt)

/-- Witness for C8: three items batched with `batchSize = 2`. -/
theorem C8_batching_partitions_witness :
    (SyncService.createChronologicalBatches 2 [item1, itemGamma, itemBeta]).flatten
      = [item1, itemGamma, itemBeta] :=
  (C8_batching_partitions 2 (by decide) [item1, itemGamma, itemBeta]).1

/-- C6: for every queue state and retry limit, the drain returns exactly the
entries with `retry_count < maxRetries` (as a permutation of the filtered
queue), sorted ascending by `(task_id, created_at)`; consequently entries
of one task are contiguous and, within one task, chronological. -/
theorem C6_drain_order (cfg : SyncConfig) (db : DBState) :
    (SyncService.getPendingSyncItemsChronological cfg db).Perm
      (db.sync_queue.filter fun r => r.retry_count < cfg.maxRetries) ∧
    List.Sorted SyncService.queueLE (SyncService.getPendingSyncItemsChronological cfg db) ∧
    (∀ i j k : Fin (SyncService.getPendingSyncItemsChronological cfg db).length,
      i < j → j < k →
      ((SyncService.getPendingSyncItemsChronological cfg db).get i).task_id
        = ((SyncService.getPendingSyncItemsChronological cfg db).get k).task_id →
      ((SyncService.getPendingSyncItemsChronological cfg db).get j).task_id
        = ((SyncService.getPendingSyncItemsChronological cfg db).get i).task_id) ∧
    (∀ i j : Fin (SyncService.getPendingSyncItemsChronological cfg db).length,
      i < j →
      ((SyncService.getPendingSyncItemsChronological cfg db).get i).task_id
        = ((SyncService.getPendingSyncItemsChronological cfg db).get j).task_id →
      ((SyncService.getPendingSyncItemsChronological cfg db).get i).created_at
        ≤ ((SyncService.getPendingSyncItemsChronological cfg db).get j).created_at) := by
  have hsorted : List.Pairwise SyncService.queueLE
      (SyncService.getPendingSyncItemsChronological cfg db) :=
    List.sorted_insertionSort SyncService.queueLE _
  have hget := List.pairwise_iff_get.1 hsorted
  refine ⟨List.perm_insertionSort _ _, hsorted, ?_, ?_⟩
  · intro i j k hij hjk hik
    have h1 := hget i j hij
    have h2 := hget j k hjk
    unfold SyncService.queueLE at h1 h2
    rcases h1 with h1 | ⟨h1, _⟩
    · rcases h2 with h2 | ⟨h2, _⟩
      · exact absurd (hik ▸ lt_trans h1 h2) (lt_irrefl _)
      · exact h2.trans hik.symm
    · exact h1.symm
  · intro i j hij hik
    have h1 := hget i j hij
    unfold SyncService.queueLE at h1
    rcases h1 with h1 | ⟨_, h1c⟩
    · exact absurd (hik ▸ h1) (lt_irrefl _)
    · exact h1c

/-- Witness for C6 at a concrete store: the drained list is a permutation of
the eligible entries. -/
theorem C6_drain_order_witness :
    (SyncService.getPendingSyncItemsChronological {} db1).Perm
      (db1.sync_queue.filter fun r => r.retry_count < SyncConfig.maxRetries {}) :=
  (C6_drain_order {} db1).1

/-- Shared helper: the accumulator lemma for `String.intercalate.go`. -/
theorem intercalate_go_spec (s : String) :
    ∀ (as : List String) (acc : String),
      String.intercalate.go acc s as = acc ++ strTailJoin s as := by
  intro as
  induction as with
  | nil =>
      intro acc
      show acc = acc ++ strTailJoin s []
      simp [strTailJoin]
  | cons a as ih =>
      intro acc
      show String.intercalate.go (acc ++ s ++ a) s as = acc ++ strTailJoin s (a :: as)
      rw [ih]
      simp [strTailJoin, String.append_assoc]

/-- Shared helper: character view of `strTailJoin "|"`. -/
theorem strTailJoin_data (as : List String) :
    (strTailJoin "|" as).data = tailCh (as.map String.data) := by
  induction as with
  | nil => rfl
  | cons a as ih =>
      show ("|" ++ a ++ strTailJoin "|" as).data = tailCh (a.data :: as.map String.data)
      rw [String.data_append, String.data_append, ih]
      rfl

/-- Shared helper: character view of `String.intercalate "|"`. -/
theorem intercalate_bar_data (l : List String) :
    (String.intercalate "|" l).data = joinCh (l.map String.data) := by
  cases l with
  | nil => rfl
  | cons a as =>
      show (String.intercalate.go a "|" as).data = joinCh (a.data :: as.map String.data)
      rw [intercalate_go_spec, String.data_append, strTailJoin_data]
      rfl

/-- Shared helper: character view of the checksum input string. -/
theorem dataString_data (items : List SyncQueueItem) :
    (SyncService.dataString items).data
      = joinCh ((items.map SyncService.chunkString).map String.data) := by
  unfold SyncService.dataString
  exact intercalate_bar_data _

/-- Shared helper: splitting two lists at the first occurrence of a
character absent from both prefixes. -/
theorem split_first_sep (c : Char) :
    ∀ (a1 a2 b1 b2 : List Char), c ∉ a1 → c ∉ a2 →
      a1 ++ c :: b1 = a2 ++ c :: b2 → a1 = a2 ∧ b1 = b2 := by
  intro a1
  induction a1 with
  | nil =>
      intro a2 b1 b2 _ h2 heq
      cases a2 with
      | nil =>
          simp only [List.nil_append, List.cons.injEq] at heq
          exact ⟨rfl, heq.2⟩
      | cons y ys =>
          simp only [List.nil_append, List.cons_append, List.cons.injEq] at heq
          exact absurd (heq.1 ▸ List.mem_cons_self y ys) h2
  | cons x xs ih =>
      intro a2 b1 b2 h1 h2 heq
      cases a2 with
      | nil =>
          simp only [List.nil_append, List.cons_append, List.cons.injEq] at heq
          exact absurd (heq.1.symm ▸ List.mem_cons_self x xs) h1
      | cons y ys =>
          simp only [List.cons_append, List.nil_append, List.cons.injEq] at heq
          have hx : c ∉ xs := fun hm => h1 (List.mem_cons_of_mem x hm)
          have hy : c ∉ ys := fun hm => h2 (List.mem_cons_of_mem y hm)
          obtain ⟨hpre, hpost⟩ := ih ys b1 b2 hx hy heq.2
          exact ⟨by rw [heq.1, hpre], hpost⟩

/-- Shared helper: on chunk lists of equal length whose chunks avoid the
separator, the `'|'`-join is injective. -/
theorem joinCh_inj :
    ∀ (l1 l2 : List (List Char)), (∀ s ∈ l1, '|' ∉ s) → (∀ s ∈ l2, '|' ∉ s) →
      l1.length = l2.length → joinCh l1 = joinCh l2 → l1 = l2 := by
  intro l1
  induction l1 with
  | nil =>
      intro l2 _ _ hlen _
      cases l2 with
      | nil => rfl
      | cons y ys => simp at hlen
  | cons x xs ih =>
      intro l2 h1 h2 hlen hj
      cases l2 with
      | nil => simp at hlen
      | cons y ys =>
          have hx : '|' ∉ x := h1 x (List.mem_cons_self x xs)
          have hy : '|' ∉ y := h2 y (List.mem_cons_self y ys)
          cases xs with
          | nil =>
              cases ys with
              | nil =>
                  simp only [joinCh, tailCh, List.append_nil] at hj
                  rw [hj]
              | cons y2 ys2 => simp at hlen
          | cons x2 xs2 =>
              cases ys with
              | nil => simp at hlen
              | cons y2 ys2 =>
                  have hj' : x ++ '|' :: joinCh (x2 :: xs2) = y ++ '|' :: joinCh (y2 :: ys2) := by
                    simpa [joinCh, tailCh] using hj
                  obtain ⟨hhead, htail⟩ := split_first_sep '|' x y _ _ hx hy hj'
                  have hxs : ∀ s ∈ x2 :: xs2, '|' ∉ s :=
                    fun s hs => h1 s (List.mem_cons_of_mem x hs)
                  have hys : ∀ s ∈ y2 :: ys2, '|' ∉ s :=
                    fun s hs => h2 s (List.mem_cons_of_mem y hs)
                  have hlen' : (x2 :: xs2).length = (y2 :: ys2).length := by
                    simpa using hlen
                  have := ih (y2 :: ys2) hxs hys hlen' htail
                  rw [hhead, this]

/-- Shared helper: swapping two items with distinct chunk strings changes
the list of chunk strings. -/
theorem map_chunkString_swap_ne (a b : SyncQueueItem)
    (hab : SyncService.chunkString a ≠ SyncService.chunkString b) :
    ∀ (pre mid post : List SyncQueueItem),
      (pre ++ a :: (mid ++ b :: post)).map SyncService.chunkString
        ≠ (pre ++ b :: (mid ++ a :: post)).map SyncService.chunkString := by
  intro pre
  induction pre with
  | nil =>
      intro mid post h
      rw [List.nil_append, List.nil_append, List.map_cons, List.map_cons] at h
      injection h with h1 h2
      exact hab h1
  | cons p ps ih =>
      intro mid post h
      rw [List.cons_append, List.cons_append, List.map_cons, List.map_cons] at h
      injection h with h1 h2
      exact ih mid post h2

/-- Shared helper: the chunk string only reads the checksum quadruple. -/
theorem chunkString_eq_of_tuple (x y : SyncQueueItem) (h : itemTuple x = itemTuple y) :
    SyncService.chunkString x = SyncService.chunkString y := by
  unfold itemTuple at h
  simp only [Prod.mk.injEq] at h
  unfold SyncService.chunkString
  rw [h.1, h.2.1, h.2.2.1, h.2.2.2]

/-- Shared helper: equal quadruple sequences give equal chunk-string
sequences. -/
theorem map_chunkString_eq_of_tuples :
    ∀ (b1 b2 : List SyncQueueItem), b1.map itemTuple = b2.map itemTuple →
      b1.map SyncService.chunkString = b2.map SyncService.chunkString := by
  intro b1
  induction b1 with
  | nil =>
      intro b2 h
      cases b2 with
      | nil => rfl
      | cons y ys => simp at h
  | cons x xs ih =>
      intro b2 h
      cases b2 with
      | nil => simp at h
      | cons y ys =>
          simp only [List.map_cons, List.cons.injEq] at h ⊢
          exact ⟨chunkString_eq_of_tuple x y h.1, ih ys h.2⟩

/-- C9 (amended): the batch checksum is a deterministic pure function of the
ordered sequence of `(id, task_id, operation, created_at)` quadruples —
batches with equal quadruple sequences have equal checksums — and swapping
two items whose serialised quadruples differ changes the string over which
the checksum digest is computed (whenever no serialised quadruple contains
the `'|'` separator, as holds for the generated ids, UUIDs, operation names
and decimal timestamps of the source). -/
theorem C9_checksum_determinism_and_swap :
    (∀ b1 b2 : List SyncQueueItem, b1.map itemTuple = b2.map itemTuple →
      SyncService.createBatchChecksum b1 = SyncService.createBatchChecksum b2) ∧
    (∀ (pre mid post : List SyncQueueItem) (a b : SyncQueueItem),
      SyncService.chunkString a ≠ SyncService.chunkString b →
      (∀ x ∈ pre ++ a :: (mid ++ b :: post), '|' ∉ (SyncService.chunkString x).data) →
      SyncService.dataString (pre ++ a :: (mid ++ b :: post))
        ≠ SyncService.dataString (pre ++ b :: (mid ++ a :: post))) := by
  constructor
  · intro b1 b2 h
    unfold SyncService.createBatchChecksum SyncService.dataString
    rw [map_chunkString_eq_of_tuples b1 b2 h]
  · intro pre mid post a b hab hfree heq
    have hd := congrArg String.data heq
    rw [dataString_data, dataString_data] at hd
    have hmem : ∀ x, x ∈ pre ++ b :: (mid ++ a :: post) →
        x ∈ pre ++ a :: (mid ++ b :: post) := by
      intro x hx
      simp only [List.mem_append, List.mem_cons] at hx ⊢
      tauto
    have hfree1 : ∀ s ∈ ((pre ++ a :: (mid ++ b :: post)).map SyncService.chunkString).map
        String.data, '|' ∉ s := by
      intro s hs
      simp only [List.mem_map] at hs
      obtain ⟨t, ⟨x, hx, rfl⟩, rfl⟩ := hs
      exact hfree x hx
    have hfree2 : ∀ s ∈ ((pre ++ b :: (mid ++ a :: post)).map SyncService.chunkString).map
        String.data, '|' ∉ s := by
      intro s hs
      simp only [List.mem_map] at hs
      obtain ⟨t, ⟨x, hx, rfl⟩, rfl⟩ := hs
      exact hfree x (hmem x hx)
    have hlen : (((pre ++ a :: (mid ++ b :: post)).map SyncService.chunkString).map
        String.data).length
        = (((pre ++ b :: (mid ++ a :: post)).map SyncService.chunkString).map
            String.data).length := by
      simp
    have hdata := joinCh_inj _ _ hfree1 hfree2 hlen hd
    have hstr : (pre ++ a :: (mid ++ b :: post)).map SyncService.chunkString
        = (pre ++ b :: (mid ++ a :: post)).map SyncService.chunkString :=
      List.map_injective_iff.2 (fun s t hst => String.ext hst) hdata
    exact map_chunkString_swap_ne a b hab pre mid post hstr

/-- Witness for C9's amended statement: determinism applied to a concrete
batch, and a concrete swap of two items with distinct quadruples changing
the checksum input string. -/
theorem C9_checksum_determinism_and_swap_witness :
    SyncService.createBatchChecksum [itemAlpha, itemGamma]
      = SyncService.createBatchChecksum [itemAlpha, itemGamma] ∧
    SyncService.dataString [itemAlpha, itemGamma]
      ≠ SyncService.dataString [itemGamma, itemAlpha] :=
  ⟨C9_checksum_determinism_and_swap.1 [itemAlpha, itemGamma] [itemAlpha, itemGamma] rfl,
   C9_checksum_determinism_and_swap.2 [] [] [] itemAlpha itemGamma (by decide) (by decide)⟩

/-- Counterexample to C9 as stated: `itemAlpha` and `itemBeta` are distinct
items (they differ in `retry_count`) agreeing on the checksum quadruple, so
swapping them leaves the batch checksum unchanged. -/
theorem C9_swap_equal_tuple_counterexample :
    itemAlpha ≠ itemBeta ∧
    SyncService.createBatchChecksum [itemAlpha, itemBeta]
      = SyncService.createBatchChecksum [itemBeta, itemAlpha] := by
  constructor
  · decide
  · show md5Hex (SyncService.dataString [itemAlpha, itemBeta])
      = md5Hex (SyncService.dataString [itemBeta, itemAlpha])
    exact congrArg md5Hex (by decide)

/-- C4 (code bug): a fresh mutation whose dispatch would fail on every
attempt is never retried at all — each connected pass throws at the
mark-in-progress step (the `sync_queue` schema lacks the `sync_status`
column) before any batch is dispatched, so after `maxRetries = 3` passes
with an always-failing remote authority the queue entry is unchanged at
`retry_count = 0`, the dead-letter store is empty, and the store is
untouched, where the claim requires three retries and exactly one
dead-letter entry with the queue entry removed. -/
theorem C4_retry_never_happens :
    (syncPasses {} (failingRemote "boom") 9 ⟨[sampleTask], [item1], []⟩ 3).sync_queue
      = [item1] ∧
    (syncPasses {} (failingRemote "boom") 9 ⟨[sampleTask], [item1], []⟩ 3).dead_letter
      = [] ∧
    (syncPasses {} (failingRemote "boom") 9 ⟨[sampleTask], [item1], []⟩ 3).tasks
      = [sampleTask] ∧
    (SyncService.sync {} (failingRemote "boom") 9 ⟨[sampleTask], [item1], []⟩).1.success
      = false := by
  decide

end Sync
